import Mathlib

set_option maxHeartbeats 1000000

/-!
Verification of the data/domain layer of the repository's two services:
the micro-blogging API (`twitter/app.py`, `twitter/models.py`) and the
recipe catalog (`draft/module_26_fastapi/homework/cookbook/main.py`).

The relational store is embedded as lists of rows; each route handler
becomes a function from a store (plus its arguments) to `Except ApiError`
of its result.  An `HTTPException(status_code, detail)` raised by a
handler becomes `ApiError.http status detail`; an ORM exception that no
handler catches (`NoResultFound`, `MultipleResultsFound` from
`scalar_one` / `scalar_one_or_none`) becomes `ApiError.internal`, which
the application-wide exception handler turns into a 500 response.
A failed operation commits nothing, so an `.error` result carries no
store: the store observed afterwards is the one passed in.
-/

/-- Outcome of a failed request: either an `HTTPException` raised by a
handler (status code and detail string), or an uncaught ORM exception
(by its class name) that surfaces as an internal server error. -/
inductive ApiError where
  | http (status : Nat) (detail : String)
  | internal (name : String)
deriving DecidableEq, Repr

namespace Twitter

/-- `models.User`: id (primary key), api_key (unique, non-null), name. -/
structure User where
  id : Nat
  api_key : String
  name : String
deriving DecidableEq, Repr

/-- `models.Post`: id, content, attachments (denormalized URL list), user_id. -/
structure Post where
  id : Nat
  content : String
  attachments : List String
  user_id : Nat
deriving DecidableEq, Repr

/-- `models.Media`: id, url, post_id (nullable until attached). -/
structure Media where
  id : Nat
  url : String
  post_id : Option Nat
deriving DecidableEq, Repr

/-- `models.Like`: id, user_id, post_id; `(user_id, post_id)` unique. -/
structure Like where
  id : Nat
  user_id : Nat
  post_id : Nat
deriving DecidableEq, Repr

/-- `models.Subscription`: id, follower_id, following_id;
`(follower_id, following_id)` unique. -/
structure Subscription where
  id : Nat
  follower_id : Nat
  following_id : Nat
deriving DecidableEq, Repr

/-- The relational store of the micro-blogging service: one list of rows
per table. -/
structure Store where
  users : List User
  posts : List Post
  medias : List Media
  likes : List Like
  subs : List Subscription
deriving DecidableEq, Repr

def HTTP_STATUS_NOT_FOUND : Nat := 404
def HTTP_STATUS_BAD_REQUEST : Nat := 400
def HTTP_STATUS_FORBIDDEN : Nat := 403

/-- SQLAlchemy `Result.scalar_one_or_none()`: `none` on zero rows, the
row on exactly one, and a `MultipleResultsFound` exception otherwise. -/
def scalarOneOrNone {α : Type} (rows : List α) : Except String (Option α) :=
  match rows with
  | [] => .ok none
  | [x] => .ok (some x)
  | _ => .error "MultipleResultsFound"

/-- SQLAlchemy `Result.scalar_one()`: `NoResultFound` on zero rows, the
row on exactly one, `MultipleResultsFound` otherwise. -/
def scalarOne {α : Type} (rows : List α) : Except String α :=
  match rows with
  | [] => .error "NoResultFound"
  | [x] => .ok x
  | _ => .error "MultipleResultsFound"

/-- The conjunction of the filters built in `get_user_by_filter`:
`filters.append(User.api_key == api_key)` runs only when `api_key` is
truthy (present and non-empty), `filters.append(User.id == user_id)`
only when `user_id` is truthy (present and nonzero); `.filter(*filters)`
conjoins whatever was appended. -/
def userMatches (api_key : Option String) (user_id : Option Nat) (u : User) : Bool :=
  (match api_key with
   | some k => if k == "" then true else u.api_key == k
   | none => true)
  &&
  (match user_id with
   | some i => if i == 0 then true else u.id == i
   | none => true)

/-- `app.get_user_by_filter`: select users matching the appended
filters, take `scalar_one_or_none`, and raise 404 "User not found" when
no row matches. -/
def get_user_by_filter (db : Store) (api_key : Option String) (user_id : Option Nat) :
    Except ApiError User :=
  match scalarOneOrNone (db.users.filter (userMatches api_key user_id)) with
  | .error e => .error (.internal e)
  | .ok none => .error (.http HTTP_STATUS_NOT_FOUND "User not found")
  | .ok (some u) => .ok u

/-- `app.get_user_and_tweet`: resolve the user by api key first, then
the tweet by id (404 "Tweet not found" when absent). -/
def get_user_and_tweet (db : Store) (tweet_id : Nat) (user_api_key : String) :
    Except ApiError (User × Post) :=
  match get_user_by_filter db (some user_api_key) none with
  | .error e => .error e
  | .ok current_user =>
    match scalarOneOrNone (db.posts.filter (fun p => p.id == tweet_id)) with
    | .error e => .error (.internal e)
    | .ok none => .error (.http HTTP_STATUS_NOT_FOUND "Tweet not found")
    | .ok (some current_tweet) => .ok (current_user, current_tweet)

/-- `app.like_tweet`: resolve user and tweet, insert a Like row and
commit.  The commit raises `IntegrityError` exactly when the
`unique_user_post` constraint of `Like.__table_args__` is violated,
i.e. when a row with the same `(user_id, post_id)` already exists; the
handler translates that into an HTTPException with status 404 and
detail "You have already liked this tweet".  `new_like_id` stands for
the fresh autoincrement primary key. -/
def like_tweet (db : Store) (id : Nat) (api_key : String) (new_like_id : Nat) :
    Except ApiError Store :=
  match get_user_and_tweet db id api_key with
  | .error e => .error e
  | .ok (current_user, current_tweet) =>
    if db.likes.any (fun l => l.user_id == current_user.id && l.post_id == current_tweet.id) then
      .error (.http HTTP_STATUS_NOT_FOUND "You have already liked this tweet")
    else
      .ok { db with likes := db.likes ++ [⟨new_like_id, current_user.id, current_tweet.id⟩] }

/-- `app.follow` (via `get_followers`): resolve the requester by api
key and the target by id, insert a Subscription row and commit.  The
commit raises `IntegrityError` exactly when the
`unique_follower_following` constraint is violated; the handler rolls
back and raises status 400 with detail "You have already subscribed to
this user".  `new_sub_id` stands for the fresh autoincrement key. -/
def follow (db : Store) (id : Nat) (api_key : String) (new_sub_id : Nat) :
    Except ApiError Store :=
  match get_user_by_filter db (some api_key) none with
  | .error e => .error e
  | .ok current_user =>
    match get_user_by_filter db none (some id) with
    | .error e => .error e
    | .ok follower =>
      if db.subs.any (fun s => s.follower_id == current_user.id &&
          s.following_id == follower.id) then
        .error (.http HTTP_STATUS_BAD_REQUEST "You have already subscribed to this user")
      else
        .ok { db with subs := db.subs ++ [⟨new_sub_id, current_user.id, follower.id⟩] }

/-- `app.delete_tweet`: resolve user and tweet; 403 "Forbidden" when
the requester does not own the tweet; otherwise delete the Post, which
cascades (`cascade='all, delete'` on `Post.likes` and `Post.images`) to
its Like rows and its attached Media rows. -/
def delete_tweet (db : Store) (id : Nat) (api_key : String) : Except ApiError Store :=
  match get_user_and_tweet db id api_key with
  | .error e => .error e
  | .ok (current_user, current_tweet) =>
    if current_tweet.user_id != current_user.id then
      .error (.http HTTP_STATUS_FORBIDDEN "Forbidden")
    else
      .ok { db with
        posts := db.posts.filter (fun p => !(p.id == current_tweet.id)),
        likes := db.likes.filter (fun l => !(l.post_id == current_tweet.id)),
        medias := db.medias.filter (fun m => !(m.post_id == some current_tweet.id)) }

/-- `app.create_tweet`: look the author up with `scalar_one()` (NOT via
`get_user_by_filter`, so a miss raises `NoResultFound` instead of a 404
HTTPException); resolve the Media rows whose id is in
`tweet_media_ids` (ids matching no row are silently dropped by the
`IN` filter); snapshot their URLs into the new Post's attachments;
attach each resolved Media row to the new Post.  `new_post_id` stands
for the fresh autoincrement key. -/
def create_tweet (db : Store) (api_key : String) (tweet_content : String)
    (attachments_ids : List Nat) (new_post_id : Nat) : Except ApiError (Store × Nat) :=
  match scalarOne (db.users.filter (fun u => u.api_key == api_key)) with
  | .error e => .error (.internal e)
  | .ok current_user =>
    let images := db.medias.filter (fun m => attachments_ids.contains m.id)
    let images_urls := images.map (fun m => m.url)
    let new_post : Post := ⟨new_post_id, tweet_content, images_urls, current_user.id⟩
    let medias' := db.medias.map (fun m =>
      if attachments_ids.contains m.id then { m with post_id := some new_post_id } else m)
    .ok ({ db with posts := db.posts ++ [new_post], medias := medias' }, new_post_id)

/-- Number of Like rows for a given `(user_id, post_id)` pair. -/
def likePairCount (db : Store) (uid pid : Nat) : Nat :=
  (db.likes.filter (fun l => l.user_id == uid && l.post_id == pid)).length

/-- The `unique_user_post` invariant: at most one Like row per
`(user_id, post_id)` pair. -/
def LikesUnique (db : Store) : Prop :=
  ∀ uid pid, likePairCount db uid pid ≤ 1

/-- Number of Subscription rows for a `(follower_id, following_id)` pair. -/
def subPairCount (db : Store) (fid gid : Nat) : Nat :=
  (db.subs.filter (fun s => s.follower_id == fid && s.following_id == gid)).length

/-- The `unique_follower_following` invariant: at most one Subscription
row per `(follower_id, following_id)` pair. -/
def SubsUnique (db : Store) : Prop :=
  ∀ fid gid, subPairCount db fid gid ≤ 1

/-- A two-user store on which the C2 counterexample is evaluated. -/
def c2_db : Store :=
  { users := [⟨1, "k1", "alice"⟩, ⟨2, "k2", "bob"⟩],
    posts := [], medias := [], likes := [], subs := [] }

end Twitter

namespace Twitter

/-- A one-user store with no user whose api_key is "nokey", on which
the C3 counterexample is evaluated. -/
def c3_db : Store :=
  { users := [⟨1, "test", "alice"⟩],
    posts := [], medias := [], likes := [], subs := [] }

/-- Whether a request outcome is a NotFound (404) HTTPException. -/
def resultIsNotFound {α : Type} (r : Except ApiError α) : Bool :=
  match r with
  | .error (.http s _) => s == HTTP_STATUS_NOT_FOUND
  | _ => false

end Twitter

namespace Twitter

/-- C2 counterexample: the claim says api_key takes precedence when
both filters are supplied, so that a user is found whenever the api_key
matches regardless of the id argument.  On a store holding a user with
api_key "k1" (and id 1), the lookup with api_key "k1" and user_id 2
conjoins the two filters and fails with 404 "User not found". -/
theorem c2_counterexample :
    (c2_db.users.any (fun u => u.api_key == "k1")) = true ∧
    get_user_by_filter c2_db (some "k1") (some 2) =
      .error (.http HTTP_STATUS_NOT_FOUND "User not found") := by
  constructor
  · rfl
  · rfl

/-- C2 (amended): `get_user_by_filter` conjoins whichever filters are
supplied (truthy): it returns a user iff that user is the unique row
matching every supplied filter, and it fails with 404 "User not found"
iff no row matches all supplied filters — in particular whenever no row
matches, and, when both filters are absent, iff the user table is
empty. -/
theorem c2_user_lookup_conjoins_filters (db : Store) (a : Option String) (i : Option Nat) :
    (∀ u, get_user_by_filter db a i = .ok u ↔ db.users.filter (userMatches a i) = [u]) ∧
    (get_user_by_filter db a i = .error (.http HTTP_STATUS_NOT_FOUND "User not found") ↔
      db.users.filter (userMatches a i) = []) := by
  unfold get_user_by_filter scalarOneOrNone
  rcases h : db.users.filter (userMatches a i) with _ | ⟨x, _ | ⟨y, t⟩⟩ <;>
    simp [HTTP_STATUS_NOT_FOUND]

end Twitter

namespace Twitter

/-- C3 counterexample: creating a tweet with an api key that matches no
User row does not fail with NotFound: `create_tweet` resolves the
author with `scalar_one()`, whose miss raises the uncaught
`NoResultFound` exception (an internal server error), not a 404
HTTPException. -/
theorem c3_counterexample :
    resultIsNotFound (create_tweet c3_db "nokey" "hello" [] 1) = false ∧
    create_tweet c3_db "nokey" "hello" [] 1 = .error (.internal "NoResultFound") := by
  constructor
  · rfl
  · rfl

/-- C3 (amended): for every createTweet call whose api key matches no
User row, the operation fails with the uncaught `NoResultFound`
exception surfacing as an internal error — not with NotFound, because
the author is resolved with `scalar_one()` rather than through the
user-lookup helper. -/
theorem c3_create_tweet_unknown_key_internal_error (db : Store) (k c : String)
    (ids : List Nat) (n : Nat)
    (h : db.users.filter (fun u => u.api_key == k) = []) :
    create_tweet db k c ids n = .error (.internal "NoResultFound") := by
  unfold create_tweet
  rw [h]
  rfl

/-- Witness for C3's amended theorem at a concrete store and key. -/
theorem c3_create_tweet_unknown_key_internal_error_witness :
    create_tweet c3_db "nokey" "hi" [7] 2 = .error (.internal "NoResultFound") :=
  c3_create_tweet_unknown_key_internal_error c3_db "nokey" "hi" [7] 2 (by rfl)

end Twitter

namespace Twitter

/-- A list with no element satisfying `p` (stated via `filter` length)
has `any p = false`. -/
theorem any_eq_false_of_filter_length_zero {α : Type} (l : List α) (p : α → Bool)
    (h : (l.filter p).length = 0) : l.any p = false := by
  rw [List.length_eq_zero, List.filter_eq_nil_iff] at h
  rw [List.any_eq_false]
  intro x hx
  exact h x hx

/-- C1: duplicate likes.  In a store satisfying the `unique_user_post`
invariant, where the api key resolves to user `u`, tweet `t` exists and
`(u, t)` has no Like row yet: the first like succeeds leaving exactly
one Like row for the pair, the resulting store still satisfies the
invariant, and a second like by the same user on the same tweet fails
with the HTTPException carrying detail "You have already liked this
tweet" (the IntegrityError of the uniqueness constraint translated at
the operation boundary), committing nothing. -/
theorem c1_like_twice_one_row_then_conflict (db : Store) (u : User) (t : Post)
    (k : String) (n1 n2 : Nat)
    (hu : db.users.filter (userMatches (some k) none) = [u])
    (ht : db.posts.filter (fun p => p.id == t.id) = [t])
    (hfresh : likePairCount db u.id t.id = 0)
    (hinv : LikesUnique db) :
    ∃ db1,
      like_tweet db t.id k n1 = .ok db1 ∧
      likePairCount db1 u.id t.id = 1 ∧
      LikesUnique db1 ∧
      like_tweet db1 t.id k n2 =
        .error (.http HTTP_STATUS_NOT_FOUND "You have already liked this tweet") := by
  have hut : get_user_and_tweet db t.id k = .ok (u, t) := by
    unfold get_user_and_tweet get_user_by_filter
    rw [hu, ht]
    rfl
  have hnil : db.likes.filter (fun l => l.user_id == u.id && l.post_id == t.id) = [] := by
    have := hfresh
    unfold likePairCount at this
    exact List.length_eq_zero.mp this
  have hany : db.likes.any (fun l => l.user_id == u.id && l.post_id == t.id) = false :=
    any_eq_false_of_filter_length_zero _ _ hfresh
  refine ⟨{ db with likes := db.likes ++ [⟨n1, u.id, t.id⟩] }, ?_, ?_, ?_, ?_⟩
  · unfold like_tweet
    rw [hut]
    simp [hany]
  · unfold likePairCount
    simp [List.filter_append, hnil]
  · intro uid pid
    unfold likePairCount
    simp only [List.filter_append, List.length_append]
    rcases Bool.eq_false_or_eq_true ((u.id == uid) && (t.id == pid)) with hm | hm
    · simp only [Bool.and_eq_true, beq_iff_eq] at hm
      obtain ⟨h1, h2⟩ := hm
      subst h1
      subst h2
      unfold likePairCount at hfresh
      simp [hnil]
    · have hx : List.filter (fun l => l.user_id == uid && l.post_id == pid)
          [(⟨n1, u.id, t.id⟩ : Like)] = [] := by
        simp [List.filter_cons, hm]
      rw [hx]
      have hle := hinv uid pid
      unfold likePairCount at hle
      simpa using hle
  · unfold like_tweet
    have hut1 : get_user_and_tweet { db with likes := db.likes ++ [⟨n1, u.id, t.id⟩] }
        t.id k = .ok (u, t) := by
      unfold get_user_and_tweet get_user_by_filter
      rw [show ({ db with likes := db.likes ++ [⟨n1, u.id, t.id⟩] } : Store).users
            = db.users from rfl]
      rw [show ({ db with likes := db.likes ++ [⟨n1, u.id, t.id⟩] } : Store).posts
            = db.posts from rfl]
      rw [hu, ht]
      rfl
    rw [hut1]
    simp

/-- The store on which the C1 witness instantiates the theorem. -/
def c1_db : Store :=
  { users := [⟨1, "test", "alice"⟩],
    posts := [⟨10, "hi", [], 1⟩],
    medias := [], likes := [], subs := [] }

/-- Witness for C1 at a concrete store, user, tweet and key. -/
theorem c1_like_twice_one_row_then_conflict_witness :
    ∃ db1,
      like_tweet c1_db 10 "test" 1 = .ok db1 ∧
      likePairCount db1 1 10 = 1 ∧
      LikesUnique db1 ∧
      like_tweet db1 10 "test" 2 =
        .error (.http HTTP_STATUS_NOT_FOUND "You have already liked this tweet") :=
  c1_like_twice_one_row_then_conflict c1_db ⟨1, "test", "alice"⟩ ⟨10, "hi", [], 1⟩
    "test" 1 2 (by rfl) (by rfl) (by rfl)
    (by intro uid pid; simp [likePairCount, c1_db])

end Twitter

namespace Twitter

/-- C9: duplicate subscriptions.  In a store satisfying the
`unique_follower_following` invariant, where the api key resolves to
user `u` and the target id resolves to user `v`, with no Subscription
row for `(u, v)` yet: the first follow succeeds leaving exactly one
Subscription row for the pair, the resulting store still satisfies the
invariant, and a second follow by the same requester on the same target
fails with the HTTPException carrying detail "You have already
subscribed to this user" (the IntegrityError of the uniqueness
constraint translated, after rollback, at the operation boundary),
committing nothing. -/
theorem c9_follow_twice_one_row_then_conflict (db : Store) (u v : User)
    (tid : Nat) (k : String) (n1 n2 : Nat)
    (hu : db.users.filter (userMatches (some k) none) = [u])
    (hv : db.users.filter (userMatches none (some tid)) = [v])
    (hfresh : subPairCount db u.id v.id = 0)
    (hinv : SubsUnique db) :
    ∃ db1,
      follow db tid k n1 = .ok db1 ∧
      subPairCount db1 u.id v.id = 1 ∧
      SubsUnique db1 ∧
      follow db1 tid k n2 =
        .error (.http HTTP_STATUS_BAD_REQUEST "You have already subscribed to this user") := by
  have hnil : db.subs.filter (fun s => s.follower_id == u.id && s.following_id == v.id) = [] := by
    have h0 := hfresh
    unfold subPairCount at h0
    exact List.length_eq_zero.mp h0
  have hany : db.subs.any (fun s => s.follower_id == u.id && s.following_id == v.id) = false :=
    any_eq_false_of_filter_length_zero _ _ hfresh
  refine ⟨{ db with subs := db.subs ++ [⟨n1, u.id, v.id⟩] }, ?_, ?_, ?_, ?_⟩
  · unfold follow get_user_by_filter
    rw [hu, hv]
    simp [scalarOneOrNone, hany]
  · unfold subPairCount
    simp [List.filter_append, hnil]
  · intro fid gid
    unfold subPairCount
    simp only [List.filter_append, List.length_append]
    rcases Bool.eq_false_or_eq_true ((u.id == fid) && (v.id == gid)) with hm | hm
    · simp only [Bool.and_eq_true, beq_iff_eq] at hm
      obtain ⟨h1, h2⟩ := hm
      subst h1
      subst h2
      unfold subPairCount at hfresh
      simp [hnil]
    · have hx : List.filter (fun s => s.follower_id == fid && s.following_id == gid)
          [(⟨n1, u.id, v.id⟩ : Subscription)] = [] := by
        simp [List.filter_cons, hm]
      rw [hx]
      have hle := hinv fid gid
      unfold subPairCount at hle
      simpa using hle
  · unfold follow get_user_by_filter
    rw [show ({ db with subs := db.subs ++ [⟨n1, u.id, v.id⟩] } : Store).users
          = db.users from rfl]
    rw [hu, hv]
    simp [scalarOneOrNone]

/-- The store on which the C9 witness instantiates the theorem. -/
def c9_db : Store :=
  { users := [⟨1, "test", "alice"⟩, ⟨2, "test2", "bob"⟩],
    posts := [], medias := [], likes := [], subs := [] }

/-- Witness for C9 at a concrete store, requester, target and key. -/
theorem c9_follow_twice_one_row_then_conflict_witness :
    ∃ db1,
      follow c9_db 2 "test" 1 = .ok db1 ∧
      subPairCount db1 1 2 = 1 ∧
      SubsUnique db1 ∧
      follow db1 2 "test" 2 =
        .error (.http HTTP_STATUS_BAD_REQUEST "You have already subscribed to this user") :=
  c9_follow_twice_one_row_then_conflict c9_db ⟨1, "test", "alice"⟩ ⟨2, "test2", "bob"⟩
    2 "test" 1 2 (by rfl) (by rfl) (by rfl)
    (by intro fid gid; simp [subPairCount, c9_db])

end Twitter

namespace Twitter

/-- C6: deleting a tweet.  Where the api key resolves to user `u` and
the tweet id resolves to post `t`: if `u` does not own `t` the
operation fails with 403 "Forbidden" (distinct from the 404 NotFound
status), committing nothing; if `u` owns `t`, the Post is deleted
together with every Like row of that post and every Media row attached
to it, and a subsequent fetch of that post id fails with 404
"Tweet not found". -/
theorem c6_delete_tweet_forbidden_or_cascade (db : Store) (u : User) (t : Post) (k : String)
    (hu : db.users.filter (userMatches (some k) none) = [u])
    (ht : db.posts.filter (fun p => p.id == t.id) = [t]) :
    (t.user_id ≠ u.id →
      delete_tweet db t.id k = .error (.http HTTP_STATUS_FORBIDDEN "Forbidden") ∧
      HTTP_STATUS_FORBIDDEN ≠ HTTP_STATUS_NOT_FOUND) ∧
    (t.user_id = u.id →
      ∃ db', delete_tweet db t.id k = .ok db' ∧
        db'.posts.filter (fun p => p.id == t.id) = [] ∧
        db'.likes.filter (fun l => l.post_id == t.id) = [] ∧
        db'.medias.filter (fun m => m.post_id == some t.id) = [] ∧
        get_user_and_tweet db' t.id k =
          .error (.http HTTP_STATUS_NOT_FOUND "Tweet not found")) := by
  have hut : get_user_and_tweet db t.id k = .ok (u, t) := by
    unfold get_user_and_tweet get_user_by_filter
    rw [hu, ht]
    rfl
  constructor
  · intro h
    refine ⟨?_, by decide⟩
    unfold delete_tweet
    rw [hut]
    simp [h]
  · intro h
    have hposts : (db.posts.filter (fun p => !(p.id == t.id))).filter
        (fun p => p.id == t.id) = [] := by
      rw [List.filter_filter]
      simp
    refine ⟨{ db with
        posts := db.posts.filter (fun p => !(p.id == t.id)),
        likes := db.likes.filter (fun l => !(l.post_id == t.id)),
        medias := db.medias.filter (fun m => !(m.post_id == some t.id)) },
      ?_, ?_, ?_, ?_, ?_⟩
    · unfold delete_tweet
      rw [hut]
      simp [h]
    · exact hposts
    · rw [show ({ db with
          posts := db.posts.filter (fun p => !(p.id == t.id)),
          likes := db.likes.filter (fun l => !(l.post_id == t.id)),
          medias := db.medias.filter (fun m => !(m.post_id == some t.id)) } : Store).likes
            = db.likes.filter (fun l => !(l.post_id == t.id)) from rfl]
      rw [List.filter_filter]
      simp
    · rw [show ({ db with
          posts := db.posts.filter (fun p => !(p.id == t.id)),
          likes := db.likes.filter (fun l => !(l.post_id == t.id)),
          medias := db.medias.filter (fun m => !(m.post_id == some t.id)) } : Store).medias
            = db.medias.filter (fun m => !(m.post_id == some t.id)) from rfl]
      rw [List.filter_filter]
      simp
    · unfold get_user_and_tweet get_user_by_filter
      rw [show ({ db with
          posts := db.posts.filter (fun p => !(p.id == t.id)),
          likes := db.likes.filter (fun l => !(l.post_id == t.id)),
          medias := db.medias.filter (fun m => !(m.post_id == some t.id)) } : Store).users
            = db.users from rfl]
      rw [hu]
      rw [show ({ db with
          posts := db.posts.filter (fun p => !(p.id == t.id)),
          likes := db.likes.filter (fun l => !(l.post_id == t.id)),
          medias := db.medias.filter (fun m => !(m.post_id == some t.id)) } : Store).posts
            = db.posts.filter (fun p => !(p.id == t.id)) from rfl]
      rw [hposts]
      rfl

/-- The store on which the C6 witness instantiates the theorem: user 1
owns post 10, which has one like (by user 2) and one attached media. -/
def c6_db : Store :=
  { users := [⟨1, "test", "alice"⟩, ⟨2, "test2", "bob"⟩],
    posts := [⟨10, "hi", ["media/cat.jpg"], 1⟩],
    medias := [⟨5, "media/cat.jpg", some 10⟩],
    likes := [⟨1, 2, 10⟩],
    subs := [] }

/-- Witness for C6 at a concrete store: both branches instantiated, the
forbidden branch for non-owner bob and the cascade branch for owner
alice. -/
theorem c6_delete_tweet_forbidden_or_cascade_witness :
    (delete_tweet c6_db 10 "test2" = .error (.http HTTP_STATUS_FORBIDDEN "Forbidden")) ∧
    (∃ db', delete_tweet c6_db 10 "test" = .ok db' ∧
      db'.posts.filter (fun p => p.id == 10) = [] ∧
      db'.likes.filter (fun l => l.post_id == 10) = [] ∧
      db'.medias.filter (fun m => m.post_id == some 10) = [] ∧
      get_user_and_tweet db' 10 "test" =
        .error (.http HTTP_STATUS_NOT_FOUND "Tweet not found")) := by
  constructor
  · exact ((c6_delete_tweet_forbidden_or_cascade c6_db ⟨2, "test2", "bob"⟩
      ⟨10, "hi", ["media/cat.jpg"], 1⟩ "test2" (by rfl) (by rfl)).1 (by decide)).1
  · exact (c6_delete_tweet_forbidden_or_cascade c6_db ⟨1, "test", "alice"⟩
      ⟨10, "hi", ["media/cat.jpg"], 1⟩ "test" (by rfl) (by rfl)).2 (by decide)

end Twitter

namespace Twitter

/-- C7: media attachment on tweet creation.  Where the api key resolves
(uniquely) to user `u`: the call succeeds; nonexistent media ids make no
difference (filtering the input list down to the ids that match a Media
row yields the identical result — they are silently dropped, not an
error); the new Post's attachments list is the snapshot of the resolved
Media rows' URLs; and every existing Media row whose id is in the input
list is associated with the new Post. -/
theorem c7_create_tweet_attachments (db : Store) (u : User) (k c : String)
    (ids : List Nat) (n : Nat)
    (hu : db.users.filter (fun x => x.api_key == k) = [u]) :
    ∃ db', create_tweet db k c ids n = .ok (db', n) ∧
      create_tweet db k c (ids.filter (fun i => db.medias.any (fun x => x.id == i))) n =
        .ok (db', n) ∧
      db'.posts = db.posts ++
        [⟨n, c, (db.medias.filter (fun m => ids.contains m.id)).map (fun m => m.url), u.id⟩] ∧
      (∀ m ∈ db.medias, ids.contains m.id = true →
        ({ m with post_id := some n } : Media) ∈ db'.medias) := by
  have hcont : ∀ m ∈ db.medias,
      (ids.filter (fun i => db.medias.any (fun x => x.id == i))).contains m.id
        = ids.contains m.id := by
    intro m hm
    have hq : (db.medias.any (fun x => x.id == m.id)) = true := by
      simp only [List.any_eq_true]
      exact ⟨m, hm, by simp⟩
    simp [List.contains, List.mem_filter, hq]
  refine ⟨{ db with
      posts := db.posts ++
        [⟨n, c, (db.medias.filter (fun m => ids.contains m.id)).map (fun m => m.url), u.id⟩],
      medias := db.medias.map (fun m =>
        if ids.contains m.id then { m with post_id := some n } else m) },
    ?_, ?_, ?_, ?_⟩
  · unfold create_tweet
    rw [hu]
    rfl
  · have hf : db.medias.filter
        (fun m => (ids.filter (fun i => db.medias.any (fun x => x.id == i))).contains m.id)
          = db.medias.filter (fun m => ids.contains m.id) :=
      List.filter_congr (fun m hm => hcont m hm)
    have hmp : db.medias.map (fun m =>
        if (ids.filter (fun i => db.medias.any (fun x => x.id == i))).contains m.id
        then { m with post_id := some n } else m)
          = db.medias.map (fun m =>
            if ids.contains m.id then { m with post_id := some n } else m) :=
      List.map_congr_left (fun m hm => by rw [hcont m hm])
    unfold create_tweet
    rw [hu]
    simp only [scalarOne]
    rw [hf, hmp]
  · rfl
  · intro m hm hc
    refine List.mem_map.mpr ⟨m, hm, ?_⟩
    simp only [List.contains, List.elem_eq_mem, decide_eq_true_eq] at hc
    simp [hc]

/-- The store on which the C7 witness instantiates the theorem: one
existing media row with id 5, and an input list mixing id 5 with the
nonexistent id 99. -/
def c7_db : Store :=
  { users := [⟨1, "test", "alice"⟩],
    posts := [], medias := [⟨5, "media/cat.jpg", none⟩], likes := [], subs := [] }

/-- Witness for C7 at a concrete store with media ids [5, 99]. -/
theorem c7_create_tweet_attachments_witness :
    ∃ db', create_tweet c7_db "test" "hi" [5, 99] 1 = .ok (db', 1) ∧
      create_tweet c7_db "test" "hi"
        ([5, 99].filter (fun i => c7_db.medias.any (fun x => x.id == i))) 1 =
        .ok (db', 1) ∧
      db'.posts = c7_db.posts ++
        [⟨1, "hi", (c7_db.medias.filter (fun m => [5, 99].contains m.id)).map
          (fun m => m.url), 1⟩] ∧
      (∀ m ∈ c7_db.medias, [5, 99].contains m.id = true →
        ({ m with post_id := some 1 } : Media) ∈ db'.medias) :=
  c7_create_tweet_attachments c7_db ⟨1, "test", "alice"⟩ "test" "hi" [5, 99] 1 (by rfl)

end Twitter

namespace Cookbook

/-- `models.Recipe` of the cookbook service: id (primary key), title
(unique), description, vegan flag, the numeric nutrition columns,
cooking_time (minutes), released (timestamp) and the views counter.
The Float nutrition columns (calories, proteins, fats, carbohydrates)
are modelled as integers: no verified claim computes with them — they
are only carried along and compared for (in)equality. -/
structure Recipe where
  id : Nat
  title : String
  description : String
  vegan : Bool
  calories : Int
  proteins : Int
  fats : Int
  carbohydrates : Int
  cooking_time : Nat
  released : Nat
  views : Nat
deriving DecidableEq, Repr

/-- The relational store of the cookbook service.  Ingredients and the
RecipeIngredient join rows are not modelled: no verified claim touches
them beyond being resolved for display. -/
structure CookStore where
  recipes : List Recipe
deriving DecidableEq, Repr

/-- `main.get_recipe`: `session.get` by primary key (404 "Recipe not
found" when absent); re-query the row with `.one()`; build the response
schema from the row BEFORE incrementing; then `recipe.views += 1` and
commit.  The returned recipe is the pre-increment snapshot, the stored
row carries the incremented counter. -/
def get_recipe (db : CookStore) (recipe_id : Nat) : Except ApiError (CookStore × Recipe) :=
  match db.recipes.find? (fun r => r.id == recipe_id) with
  | none => .error (.http 404 "Recipe not found")
  | some _ =>
    match Twitter.scalarOne (db.recipes.filter (fun r => r.id == recipe_id)) with
    | .error e => .error (.internal e)
    | .ok recipe =>
      let recipe_schema := recipe
      .ok (⟨db.recipes.map (fun r =>
            if r.id == recipe_id then { r with views := r.views + 1 } else r)⟩,
        recipe_schema)

/-- The `(title, cooking_time, views)` projection returned by the list
endpoint. -/
structure RecipeRow where
  title : String
  cooking_time : Nat
  views : Nat
deriving DecidableEq, Repr

/-- The `ORDER BY views DESC, cooking_time ASC` comparison of
`main.get_recipes` (chained `.order_by(desc(Recipe.views))
.order_by(Recipe.cooking_time)`). -/
def recipeRowLE (a b : RecipeRow) : Bool :=
  decide (b.views < a.views) ||
    (a.views == b.views && decide (a.cooking_time ≤ b.cooking_time))

/-- `main.get_recipes`: the projections of all recipes, ordered by
views descending then cooking_time ascending. -/
def get_recipes (db : CookStore) : List RecipeRow :=
  (db.recipes.map (fun r => ⟨r.title, r.cooking_time, r.views⟩)).mergeSort recipeRowLE

end Cookbook

namespace Cookbook

/-- A filter returning a singleton pins down `find?`. -/
theorem find?_eq_some_of_filter_singleton {α : Type} {p : α → Bool} {l : List α} {a : α}
    (h : l.filter p = [a]) : l.find? p = some a := by
  induction l with
  | nil => simp at h
  | cons x xs ih =>
    rcases Bool.eq_false_or_eq_true (p x) with hx | hx
    · rw [List.filter_cons_of_pos hx] at h
      injection h with h1 h2
      subst h1
      exact List.find?_cons_of_pos _ hx
    · rw [List.filter_cons_of_neg (by simp [hx])] at h
      rw [List.find?_cons_of_neg _ (by simp [hx])]
      exact ih h

/-- Updating rows through a guarded map leaves a predicate-free filter
empty. -/
theorem filter_map_ite_nil {α : Type} (p : α → Bool) (g : α → α) (l : List α)
    (h : l.filter p = []) :
    (l.map (fun x => if p x then g x else x)).filter p = [] := by
  rw [List.filter_eq_nil_iff] at h ⊢
  intro a ha
  rcases List.mem_map.mp ha with ⟨x, hx, rfl⟩
  have hpx := h x hx
  rw [if_neg hpx]
  exact hpx

/-- Updating rows through a guarded map rewrites a singleton filter
result to the updated row (provided the update keeps the row matching). -/
theorem filter_map_ite_singleton {α : Type} (p : α → Bool) (g : α → α) (l : List α) (a : α)
    (hg : p (g a) = true) (h : l.filter p = [a]) :
    (l.map (fun x => if p x then g x else x)).filter p = [g a] := by
  induction l with
  | nil => simp at h
  | cons x xs ih =>
    rcases Bool.eq_false_or_eq_true (p x) with hx | hx
    · rw [List.filter_cons_of_pos hx] at h
      injection h with h1 h2
      subst h1
      simp only [List.map_cons]
      rw [if_pos hx, List.filter_cons_of_pos hg]
      rw [filter_map_ite_nil p g xs h2]
    · rw [List.filter_cons_of_neg (by simp [hx])] at h
      simp only [List.map_cons]
      rw [if_neg (by simp [hx]), List.filter_cons_of_neg (by simp [hx])]
      exact ih h

/-- Behaviour of a single-recipe fetch on a store whose rows with the
fetched id are exactly `[r]`: it returns the pre-increment snapshot `r`
together with the store holding the bumped counter. -/
theorem get_recipe_spec (db : CookStore) (r : Recipe)
    (h : db.recipes.filter (fun x => x.id == r.id) = [r]) :
    get_recipe db r.id = .ok
      (⟨db.recipes.map (fun x =>
        if x.id == r.id then { x with views := x.views + 1 } else x)⟩, r) ∧
    (db.recipes.map (fun x =>
        if x.id == r.id then { x with views := x.views + 1 } else x)).filter
      (fun x => x.id == r.id) = [{ r with views := r.views + 1 }] := by
  have hfind := find?_eq_some_of_filter_singleton h
  constructor
  · unfold get_recipe
    rw [hfind, h]
    rfl
  · exact filter_map_ite_singleton _ _ _ _ (by simp) h

/-- C10: the single-recipe fetch returns the views value read BEFORE
the increment: on a store whose stored row for the id has views `v`,
the response carries views `v` while the store persisted by the call
holds `v + 1` for that row. -/
theorem c10_get_recipe_returns_pre_increment_views (db : CookStore) (r : Recipe)
    (h : db.recipes.filter (fun x => x.id == r.id) = [r]) :
    ∃ db', get_recipe db r.id = .ok (db', r) ∧
      db'.recipes.filter (fun x => x.id == r.id) = [{ r with views := r.views + 1 }] := by
  obtain ⟨h1, h2⟩ := get_recipe_spec db r h
  exact ⟨_, h1, h2⟩

/-- C4: fetching an existing recipe increments its stored view counter
by exactly 1 in the persisted store, and two successive fetches return
views values differing by exactly 1, the second strictly greater. -/
theorem c4_two_fetches_views_increase_by_one (db : CookStore) (r : Recipe)
    (h : db.recipes.filter (fun x => x.id == r.id) = [r]) :
    ∃ db1 db2 out1 out2,
      get_recipe db r.id = .ok (db1, out1) ∧
      get_recipe db1 r.id = .ok (db2, out2) ∧
      db1.recipes.filter (fun x => x.id == r.id) = [{ r with views := r.views + 1 }] ∧
      out2.views = out1.views + 1 ∧
      out1.views < out2.views := by
  obtain ⟨h1, hf1⟩ := get_recipe_spec db r h
  obtain ⟨h2, hf2⟩ := get_recipe_spec
    ⟨db.recipes.map (fun x => if x.id == r.id then { x with views := x.views + 1 } else x)⟩
    { r with views := r.views + 1 } hf1
  exact ⟨_, _, r, { r with views := r.views + 1 }, h1, h2, hf1, rfl, by simp⟩

/-- The one-recipe store on which the C4 and C10 witnesses instantiate
their theorems. -/
def c4_db : CookStore :=
  ⟨[⟨1, "Oatmeal", "breakfast", false, 300, 10, 5, 50, 15, 20240101, 0⟩]⟩

/-- Witness for C10 at a concrete store. -/
theorem c10_get_recipe_returns_pre_increment_views_witness :
    ∃ db', get_recipe c4_db 1 =
        .ok (db', ⟨1, "Oatmeal", "breakfast", false, 300, 10, 5, 50, 15, 20240101, 0⟩) ∧
      db'.recipes.filter (fun x => x.id == 1) =
        [⟨1, "Oatmeal", "breakfast", false, 300, 10, 5, 50, 15, 20240101, 1⟩] :=
  c10_get_recipe_returns_pre_increment_views c4_db
    ⟨1, "Oatmeal", "breakfast", false, 300, 10, 5, 50, 15, 20240101, 0⟩ (by rfl)

/-- Witness for C4 at a concrete store. -/
theorem c4_two_fetches_views_increase_by_one_witness :
    ∃ db1 db2 out1 out2,
      get_recipe c4_db 1 = .ok (db1, out1) ∧
      get_recipe db1 1 = .ok (db2, out2) ∧
      db1.recipes.filter (fun x => x.id == 1) =
        [⟨1, "Oatmeal", "breakfast", false, 300, 10, 5, 50, 15, 20240101, 1⟩] ∧
      out2.views = out1.views + 1 ∧
      out1.views < out2.views :=
  c4_two_fetches_views_increase_by_one c4_db
    ⟨1, "Oatmeal", "breakfast", false, 300, 10, 5, 50, 15, 20240101, 0⟩ (by rfl)

end Cookbook

namespace Cookbook

end Cookbook

namespace Cookbook

end Cookbook

namespace Cookbook

end Cookbook

namespace Cookbook

end Cookbook

namespace Cookbook

/-- C8: listRecipes.  The result of the list endpoint is a permutation
of the (title, cooking_time, views) projections of all stored recipes,
and it is pairwise ordered by views descending with ties broken by
cooking_time ascending. -/
theorem c8_list_recipes_sorted (db : CookStore) :
    (get_recipes db).Perm
      (db.recipes.map (fun r => ⟨r.title, r.cooking_time, r.views⟩)) ∧
    (get_recipes db).Pairwise (fun a b =>
      b.views < a.views ∨ (a.views = b.views ∧ a.cooking_time ≤ b.cooking_time)) := by
  constructor
  · exact List.mergeSort_perm _ _
  · have htrans : ∀ (a b c : RecipeRow),
        recipeRowLE a b → recipeRowLE b c → recipeRowLE a c := by
      intro a b c hab hbc
      simp only [recipeRowLE, Bool.or_eq_true, Bool.and_eq_true, beq_iff_eq,
        decide_eq_true_eq] at hab hbc ⊢
      omega
    have htotal : ∀ (a b : RecipeRow), recipeRowLE a b || recipeRowLE b a := by
      intro a b
      simp only [recipeRowLE, Bool.or_eq_true, Bool.and_eq_true, beq_iff_eq,
        decide_eq_true_eq]
      omega
    have hs := List.sorted_mergeSort htrans htotal
      (db.recipes.map (fun r => (⟨r.title, r.cooking_time, r.views⟩ : RecipeRow)))
    refine List.Pairwise.imp ?_ hs
    intro a b hab
    simp only [recipeRowLE, Bool.or_eq_true, Bool.and_eq_true, beq_iff_eq,
      decide_eq_true_eq] at hab
    exact hab

end Cookbook

namespace Twitter

/-- Witness for C2's amended theorem: on the two-user store, the lookup
by api key "k1" alone returns alice, the unique row matching the one
supplied filter. -/
theorem c2_user_lookup_conjoins_filters_witness :
    get_user_by_filter c2_db (some "k1") none = .ok ⟨1, "k1", "alice"⟩ :=
  ((c2_user_lookup_conjoins_filters c2_db (some "k1") none).1
    ⟨1, "k1", "alice"⟩).mpr (by rfl)

end Twitter

namespace Cookbook

/-- A three-recipe store with a views tie, on which the C8 witness
instantiates the theorem. -/
def c8_db : CookStore :=
  ⟨[⟨1, "Oatmeal", "breakfast", false, 300, 10, 5, 50, 15, 20240101, 2⟩,
    ⟨2, "Soup", "lunch", true, 150, 4, 2, 20, 40, 20240102, 5⟩,
    ⟨3, "Toast", "snack", false, 200, 6, 8, 30, 5, 20240103, 2⟩]⟩

/-- Witness for C8 at a concrete store containing a views tie. -/
theorem c8_list_recipes_sorted_witness :
    (get_recipes c8_db).Perm
      (c8_db.recipes.map (fun r => ⟨r.title, r.cooking_time, r.views⟩)) ∧
    (get_recipes c8_db).Pairwise (fun a b =>
      b.views < a.views ∨ (a.views = b.views ∧ a.cooking_time ≤ b.cooking_time)) :=
  c8_list_recipes_sorted c8_db

end Cookbook
